import Mathlib

/-!
Shallow embedding of `convert.py` (EVE Online SDE JSON-Lines to CSV
converter) and proofs about its table converters.

Modelling conventions:
* A decoded JSON scalar placed into a CSV row is a `Cell`
  (`null` for Python `None`, integers, strings, booleans).
* A record field read with `obj.get(k)` is an `Option`-typed field of a
  per-source structure (`none` models the key being absent or `null`);
  a field read with `obj[k]` (`_key` in the map/NPC sources) is a plain
  field, modelling that the converters index it unconditionally.
* Python `dict` lookup is modelled by `dget` (last binding wins, as
  repeated assignment overwrites).
* Python truthiness on optional integers (`a or b`, `if orbit_id and ...`)
  is modelled explicitly: `None` and `0` are falsy.
* Each `rows = []; for obj in ...: rows.append(...)` loop is a `List.foldl`
  that appends to the accumulator, mirroring the source's loop shape.
-/

set_option autoImplicit false
set_option maxRecDepth 8192

namespace SDE

universe u v

/-- A scalar value as it appears in a CSV row dict. -/
inductive Cell where
  | null
  | int (n : Int)
  | str (s : String)
  | bool (b : Bool)
deriving DecidableEq, Repr

/-- A CSV row: a Python dict from column name to value. -/
abbrev Row := List (String × Cell)

/-- Python `dict.get`: the last binding for a key wins (assignment overwrites). -/
def dget {κ : Type u} {α : Type v} [BEq κ] (d : List (κ × α)) (k : κ) : Option α :=
  (d.reverse.find? (fun p => p.1 == k)).map Prod.snd

/-- Python `k in dict`. -/
def dmem {κ : Type u} {α : Type v} [BEq κ] (d : List (κ × α)) (k : κ) : Bool :=
  (dget d k).isSome

/-- The value of a localizable field: either a flat string or a
language-code-to-string mapping. -/
inductive LocField where
  | flat (s : String)
  | locd (m : List (String × String))
deriving DecidableEq, Repr

/-- `SDEConverter.get_localized`: `None` passes through, a nested dict is
indexed by the language code, a flat value is returned unchanged. -/
def get_localized (v : Option LocField) (lang : String) : Option String :=
  match v with
  | none => none
  | some (.flat s) => some s
  | some (.locd m) => dget m lang

/-- `get_localized` at the default language `"en"`, as every call site uses it. -/
def getLoc (v : Option LocField) : Option String :=
  get_localized v "en"

/-- `SDEConverter.convert_value`: booleans become `1`/`0`, everything else
(including `None`) passes through. -/
def convert_value : Cell → Cell
  | .bool b => .int (if b then 1 else 0)
  | c => c

/-- Place an optional integer field into a row (`None` when absent). -/
def ocell : Option Int → Cell
  | some n => .int n
  | none => .null

/-- Place an optional scalar field into a row (`None` when absent). -/
def cello : Option Cell → Cell := fun o => o.getD .null

/-- Place an optional string (e.g. a `get_localized` result) into a row. -/
def oscell : Option String → Cell
  | some s => .str s
  | none => .null

/-- Python `str()` of an optional string, as f-string interpolation renders
it: `None` prints as `"None"`. -/
def pyStrOpt (o : Option String) : String := o.getD "None"

/-- Python truthiness of an optional integer: `None` and `0` are falsy. -/
def pyTruthy : Option Int → Bool
  | none => false
  | some v => v != 0

/-- Python `a or b` on optional integers. -/
def pyOrI (a b : Option Int) : Option Int :=
  if pyTruthy a then a else b

/-! ### Row sink (`SDEConverter.write_csv`, via `csv.DictWriter`) -/

/-- A CSV field needs quoting when it contains the delimiter, the quote
character, or a line-terminator character (`QUOTE_MINIMAL`). -/
def csvNeedsQuote (s : String) : Bool :=
  s.toList.any (fun c => c == ',' || c == '"' || c == '\r' || c == '\n')

/-- Double every quote character, as CSV quoting requires. -/
def csvEscape (s : String) : String :=
  String.join (s.toList.map (fun c => if c == '"' then "\"\"" else String.singleton c))

/-- Render one CSV field with minimal quoting. -/
def csvField (s : String) : String :=
  if csvNeedsQuote s then "\"" ++ csvEscape s ++ "\"" else s

/-- The `csv` module's textual form of a cell: `None` renders as the empty
field, booleans as Python `str()` would print them. -/
def cellStr : Cell → String
  | .null => ""
  | .int n => toString n
  | .str s => s
  | .bool b => if b then "True" else "False"

/-- Render one cell as a CSV field. -/
def renderCell (c : Cell) : String := csvField (cellStr c)

/-- File content written by `write_csv`: a header line with the declared
columns, then one line per row, extracting only the declared columns
(`extrasaction="ignore"`), a missing key rendering as the empty field
(`restval=""`). -/
def writeCsvContent (columns : List String) (rows : List Row) : String :=
  String.intercalate "," (columns.map csvField) ++ "\r\n" ++
    String.join (rows.map (fun r =>
      String.intercalate "," (columns.map (fun c => renderCell ((dget r c).getD (.str "")))) ++ "\r\n"))

/-! ### Record source (`SDEConverter.read_jsonl`) -/

/-- `read_jsonl`, at the level of already-decoded records: a filesystem maps
a file name to its record list when the file exists.  A missing file yields
an empty sequence plus a warning message, suppressed when quiet. -/
def read_jsonl {α : Type u} (fs : String → Option (List α)) (quiet : Bool)
    (filename : String) : List α × List String :=
  match fs filename with
  | none => ([], if quiet then [] else ["Warning: " ++ filename ++ " not found, skipping"])
  | some recs => (recs, [])

/-! ### Roman numerals (`InvNamesConverter.ROMAN`) -/

/-- The embedded numeral table, indices 0 through 20. -/
def ROMAN : List String :=
  ["", "I", "II", "III", "IV", "V", "VI", "VII", "VIII", "IX", "X",
   "XI", "XII", "XIII", "XIV", "XV", "XVI", "XVII", "XVIII", "XIX", "XX"]

/-- `self.ROMAN[idx] if idx < len(self.ROMAN) else str(idx)`. -/
def romanOf (idx : Nat) : String :=
  if idx < ROMAN.length then ROMAN.getD idx "" else toString idx

/-! ### Source records

One structure per input file, with exactly the fields the converters read.
Identifier-like fields are `Option Int`, pass-through scalar fields are
`Option Cell`, celestial/orbit indices (list indices into `ROMAN` and
f-string counters) are `Option Nat`. -/

/-- A record of `types.jsonl` (read by invTypes and invMetaTypes). -/
structure TypeRec where
  key : Option Int
  groupID : Option Cell
  name : Option LocField
  description : Option LocField
  mass : Option Cell
  volume : Option Cell
  capacity : Option Cell
  portionSize : Option Cell
  raceID : Option Cell
  basePrice : Option Cell
  published : Option Cell
  marketGroupID : Option Cell
  iconID : Option Cell
  soundID : Option Cell
  graphicID : Option Cell
  metaGroupID : Option Cell
  variationParentTypeID : Option Cell
deriving DecidableEq, Repr

/-- A record of `groups.jsonl`. -/
structure GroupRec where
  key : Option Int
  categoryID : Option Cell
  name : Option LocField
  iconID : Option Cell
  useBasePrice : Option Cell
  anchored : Option Cell
  anchorable : Option Cell
  fittableNonSingleton : Option Cell
  published : Option Cell
deriving DecidableEq, Repr

/-- A record of `metaGroups.jsonl`. -/
structure MetaGroupRec where
  key : Option Int
  name : Option LocField
  description : Option LocField
  iconID : Option Cell
deriving DecidableEq, Repr

/-- A material or product entry of a blueprint activity. -/
structure MatRef where
  typeID : Option Cell
  quantity : Option Cell
deriving DecidableEq, Repr

/-- The data attached to one named activity of a blueprint record. -/
structure ActivityData where
  time : Option Cell
  materials : Option (List MatRef)
  products : Option (List MatRef)
deriving DecidableEq, Repr

/-- A record of `blueprints.jsonl`; `activities` preserves the JSON
object's insertion order, as Python dict iteration does. -/
structure BlueprintRec where
  blueprintTypeID : Option Int
  activities : Option (List (String × ActivityData))
deriving DecidableEq, Repr

/-- A record of `npcCharacters.jsonl`. -/
structure CharRec where
  key : Int
  name : Option LocField
deriving DecidableEq, Repr

/-- A record of `mapSolarSystems.jsonl`. -/
structure SysRec where
  key : Int
  name : Option LocField
  regionID : Option Int
deriving DecidableEq, Repr

/-- A record of `mapPlanets.jsonl`. -/
structure PlanetRec where
  key : Int
  solarSystemID : Option Int
  celestialIndex : Option Nat
  orbitID : Option Int
  typeID : Option Int
deriving DecidableEq, Repr

/-- A record of `mapMoons.jsonl`. -/
structure MoonRec where
  key : Int
  orbitID : Option Int
  orbitIndex : Option Nat
  solarSystemID : Option Int
  typeID : Option Int
deriving DecidableEq, Repr

/-- A record of `mapStars.jsonl`. -/
structure StarRec where
  key : Int
  solarSystemID : Option Int
deriving DecidableEq, Repr

/-- A record of `mapRegions.jsonl`, `mapConstellations.jsonl`,
`npcCorporations.jsonl` or `factions.jsonl`: only `_key` and the
localized name are read. -/
structure NamedRec where
  key : Int
  name : Option LocField
deriving DecidableEq, Repr

/-- A record of `npcStations.jsonl`. -/
structure StationRec where
  key : Int
  solarSystemID : Option Int
  typeID : Option Int
  ownerID : Option Int
deriving DecidableEq, Repr

/-! ### Direct 1:1 converters -/

/-- Column order of `invTypes.csv`. -/
def invTypesCOLUMNS : List String :=
  ["typeID", "groupID", "typeName", "description", "mass", "volume", "capacity",
   "portionSize", "raceID", "basePrice", "published", "marketGroupID", "iconID",
   "soundID", "graphicID"]

/-- The row built for one `types.jsonl` record by `InvTypesConverter.convert`. -/
def invTypesRow (obj : TypeRec) : Row :=
  [("typeID", ocell obj.key),
   ("groupID", cello obj.groupID),
   ("typeName", oscell (getLoc obj.name)),
   ("description", oscell (getLoc obj.description)),
   ("mass", cello obj.mass),
   ("volume", cello obj.volume),
   ("capacity", cello obj.capacity),
   ("portionSize", cello obj.portionSize),
   ("raceID", cello obj.raceID),
   ("basePrice", cello obj.basePrice),
   ("published", convert_value (cello obj.published)),
   ("marketGroupID", cello obj.marketGroupID),
   ("iconID", cello obj.iconID),
   ("soundID", cello obj.soundID),
   ("graphicID", cello obj.graphicID)]

/-- The row-accumulation loop of `InvTypesConverter.convert`. -/
def invTypesRows (objs : List TypeRec) : List Row :=
  objs.foldl (fun rows obj => rows ++ [invTypesRow obj]) []

/-- Column order of `invGroups.csv`. -/
def invGroupsCOLUMNS : List String :=
  ["groupID", "categoryID", "groupName", "iconID", "useBasePrice", "anchored",
   "anchorable", "fittableNonSingleton", "published"]

/-- The row built for one `groups.jsonl` record by `InvGroupsConverter.convert`. -/
def invGroupsRow (obj : GroupRec) : Row :=
  [("groupID", ocell obj.key),
   ("categoryID", cello obj.categoryID),
   ("groupName", oscell (getLoc obj.name)),
   ("iconID", cello obj.iconID),
   ("useBasePrice", convert_value (cello obj.useBasePrice)),
   ("anchored", convert_value (cello obj.anchored)),
   ("anchorable", convert_value (cello obj.anchorable)),
   ("fittableNonSingleton", convert_value (cello obj.fittableNonSingleton)),
   ("published", convert_value (cello obj.published))]

/-- The row-accumulation loop of `InvGroupsConverter.convert`. -/
def invGroupsRows (objs : List GroupRec) : List Row :=
  objs.foldl (fun rows obj => rows ++ [invGroupsRow obj]) []

/-- Column order of `invMetaGroups.csv`. -/
def invMetaGroupsCOLUMNS : List String :=
  ["metaGroupID", "metaGroupName", "description", "iconID"]

/-- The row built for one `metaGroups.jsonl` record. -/
def invMetaGroupsRow (obj : MetaGroupRec) : Row :=
  [("metaGroupID", ocell obj.key),
   ("metaGroupName", oscell (getLoc obj.name)),
   ("description", oscell (getLoc obj.description)),
   ("iconID", cello obj.iconID)]

/-- The row-accumulation loop of `InvMetaGroupsConverter.convert`. -/
def invMetaGroupsRows (objs : List MetaGroupRec) : List Row :=
  objs.foldl (fun rows obj => rows ++ [invMetaGroupsRow obj]) []

/-- Column order of `invMetaTypes.csv`. -/
def invMetaTypesCOLUMNS : List String := ["typeID", "parentTypeID", "metaGroupID"]

/-- The loop body of `InvMetaTypesConverter.convert`: a row is appended only
when `metaGroupID` is not `None`. -/
def invMetaTypesStep (rows : List Row) (obj : TypeRec) : List Row :=
  match obj.metaGroupID with
  | some meta_group_id =>
      rows ++ [[("typeID", ocell obj.key),
                ("parentTypeID", cello obj.variationParentTypeID),
                ("metaGroupID", meta_group_id)]]
  | none => rows

/-- The row-accumulation loop of `InvMetaTypesConverter.convert`. -/
def invMetaTypesRows (objs : List TypeRec) : List Row :=
  objs.foldl invMetaTypesStep []

/-! ### Industry (blueprint fan-out) converters -/

/-- The static activity-name-to-id table shared by the three industry
converters. -/
def ACTIVITY_IDS : List (String × Int) :=
  [("manufacturing", 1), ("research_time", 3), ("research_material", 4),
   ("copying", 5), ("invention", 8), ("reaction", 11)]

/-- Column order of `industryActivity.csv`. -/
def industryActivityCOLUMNS : List String := ["typeID", "activityID", "time"]

/-- The inner-loop body of `IndustryActivityConverter.convert`: one row per
activity whose name resolves and which carries a `time` key. -/
def industryActivityStep (blueprint_id : Option Int) (rows : List Row)
    (p : String × ActivityData) : List Row :=
  match dget ACTIVITY_IDS p.1 with
  | some activity_id =>
      match p.2.time with
      | some t =>
          rows ++ [[("typeID", ocell blueprint_id),
                    ("activityID", Cell.int activity_id),
                    ("time", t)]]
      | none => rows
  | none => rows

/-- The row-accumulation loops of `IndustryActivityConverter.convert`. -/
def industryActivityRows (objs : List BlueprintRec) : List Row :=
  objs.foldl (fun rows obj =>
    (obj.activities.getD []).foldl (industryActivityStep obj.blueprintTypeID) rows) []

/-- Column order of `industryActivityMaterials.csv`. -/
def industryActivityMaterialsCOLUMNS : List String :=
  ["typeID", "activityID", "materialTypeID", "quantity"]

/-- The inner-loop body of `IndustryActivityMaterialsConverter.convert`:
one row per material of each resolvable activity. -/
def industryActivityMaterialsStep (blueprint_id : Option Int) (rows : List Row)
    (p : String × ActivityData) : List Row :=
  match dget ACTIVITY_IDS p.1 with
  | some activity_id =>
      (p.2.materials.getD []).foldl (fun rs material =>
        rs ++ [[("typeID", ocell blueprint_id),
                ("activityID", Cell.int activity_id),
                ("materialTypeID", cello material.typeID),
                ("quantity", cello material.quantity)]]) rows
  | none => rows

/-- The row-accumulation loops of `IndustryActivityMaterialsConverter.convert`. -/
def industryActivityMaterialsRows (objs : List BlueprintRec) : List Row :=
  objs.foldl (fun rows obj =>
    (obj.activities.getD []).foldl (industryActivityMaterialsStep obj.blueprintTypeID) rows) []

/-- Column order of `industryActivityProducts.csv`. -/
def industryActivityProductsCOLUMNS : List String :=
  ["typeID", "activityID", "productTypeID", "quantity"]

/-- The inner-loop body of `IndustryActivityProductsConverter.convert`:
one row per product of each resolvable activity. -/
def industryActivityProductsStep (blueprint_id : Option Int) (rows : List Row)
    (p : String × ActivityData) : List Row :=
  match dget ACTIVITY_IDS p.1 with
  | some activity_id =>
      (p.2.products.getD []).foldl (fun rs product =>
        rs ++ [[("typeID", ocell blueprint_id),
                ("activityID", Cell.int activity_id),
                ("productTypeID", cello product.typeID),
                ("quantity", cello product.quantity)]]) rows
  | none => rows

/-- The row-accumulation loops of `IndustryActivityProductsConverter.convert`. -/
def industryActivityProductsRows (objs : List BlueprintRec) : List Row :=
  objs.foldl (fun rows obj =>
    (obj.activities.getD []).foldl (industryActivityProductsStep obj.blueprintTypeID) rows) []


/-! ### Static reference converters -/

/-- Column order of `ramActivities.csv`. -/
def ramActivitiesCOLUMNS : List String :=
  ["activityID", "activityName", "iconNo", "description", "published"]

/-- The embedded `RamActivitiesConverter.ACTIVITIES` table. -/
def ACTIVITIES : List (Int × String × Option String × Option String × Int) :=
  [(0, "None", none, some "No activity", 1),
   (1, "Manufacturing", some "18_02", none, 1),
   (3, "Researching Time Efficiency", some "33_02", none, 1),
   (4, "Researching Material Efficiency", some "33_02", none, 1),
   (5, "Copying", some "33_02", none, 1),
   (8, "Invention", some "33_02", none, 1),
   (11, "Reactions", some "18_02", none, 1)]

/-- The row built from one `ACTIVITIES` tuple. -/
def ramActivitiesRow (t : Int × String × Option String × Option String × Int) : Row :=
  [("activityID", Cell.int t.1),
   ("activityName", Cell.str t.2.1),
   ("iconNo", oscell t.2.2.1),
   ("description", oscell t.2.2.2.1),
   ("published", Cell.int t.2.2.2.2)]

/-- The row-accumulation loop of `RamActivitiesConverter.convert`. -/
def ramActivitiesRows : List Row :=
  ACTIVITIES.foldl (fun rows t => rows ++ [ramActivitiesRow t]) []

/-- Column order of `invFlags.csv`. -/
def invFlagsCOLUMNS : List String := ["flagID", "flagName", "flagText", "orderID"]

/-- The embedded `InvFlagsConverter.FLAGS` table, reproduced verbatim. -/
def FLAGS : List (Int × String × String × Int) :=
  [
   (0, "None", "None", 0),
   (1, "Wallet", "Wallet", 10),
   (2, "Offices", "OfficeFolder", 0),
   (3, "Wardrobe", "Wardrobe", 0),
   (4, "Hangar", "Hangar", 30),
   (5, "Cargo", "Cargo", 3000),
   (6, "OfficeImpound", "Impounded Offices", 0),
   (7, "Skill", "Skill", 15),
   (8, "Reward", "Reward", 17),
   (11, "LoSlot0", "Low power slot 1", 0),
   (12, "LoSlot1", "Low power slot 2", 0),
   (13, "LoSlot2", "Low power slot 3", 0),
   (14, "LoSlot3", "Low power slot 4", 0),
   (15, "LoSlot4", "Low power slot 5", 0),
   (16, "LoSlot5", "Low power slot 6", 0),
   (17, "LoSlot6", "Low power slot 7", 0),
   (18, "LoSlot7", "Low power slot 8", 0),
   (19, "MedSlot0", "Medium power slot 1", 0),
   (20, "MedSlot1", "Medium power slot 2", 0),
   (21, "MedSlot2", "Medium power slot 3", 0),
   (22, "MedSlot3", "Medium power slot 4", 0),
   (23, "MedSlot4", "Medium power slot 5", 0),
   (24, "MedSlot5", "Medium power slot 6", 0),
   (25, "MedSlot6", "Medium power slot 7", 0),
   (26, "MedSlot7", "Medium power slot 8", 0),
   (27, "HiSlot0", "High power slot 1", 0),
   (28, "HiSlot1", "High power slot 2", 0),
   (29, "HiSlot2", "High power slot 3", 0),
   (30, "HiSlot3", "High power slot 4", 0),
   (31, "HiSlot4", "High power slot 5", 0),
   (32, "HiSlot5", "High power slot 6", 0),
   (33, "HiSlot6", "High power slot 7", 0),
   (34, "HiSlot7", "High power slot 8", 0),
   (35, "Fixed Slot", "Fixed Slot", 0),
   (36, "AssetSafety", "Asset Safety", 0),
   (56, "Capsule", "Capsule", 0),
   (57, "Pilot", "Pilot", 0),
   (61, "Skill In Training", "Skill in training", 0),
   (62, "CorpMarket", "Corporation Market Deliveries / Returns", 0),
   (63, "Locked", "Locked item, can not be moved unless unlocked", 0),
   (64, "Unlocked", "Unlocked item, can be moved", 0),
   (70, "Office Slot 1", "Office slot 1", 0),
   (71, "Office Slot 2", "Office slot 2", 0),
   (72, "Office Slot 3", "Office slot 3", 0),
   (73, "Office Slot 4", "Office slot 4", 0),
   (74, "Office Slot 5", "Office slot 5", 0),
   (75, "Office Slot 6", "Office slot 6", 0),
   (76, "Office Slot 7", "Office slot 7", 0),
   (77, "Office Slot 8", "Office slot 8", 0),
   (78, "Office Slot 9", "Office slot 9", 0),
   (79, "Office Slot 10", "Office slot 10", 0),
   (80, "Office Slot 11", "Office slot 11", 0),
   (81, "Office Slot 12", "Office slot 12", 0),
   (82, "Office Slot 13", "Office slot 13", 0),
   (83, "Office Slot 14", "Office slot 14", 0),
   (84, "Office Slot 15", "Office slot 15", 0),
   (85, "Office Slot 16", "Office slot 16", 0),
   (86, "Bonus", "Bonus", 0),
   (87, "DroneBay", "Drone Bay", 0),
   (88, "Booster", "Booster", 0),
   (89, "Implant", "Implant", 0),
   (90, "ShipHangar", "Ship Hangar", 0),
   (91, "ShipOffline", "Ship Offline", 0),
   (92, "RigSlot0", "Rig power slot 1", 0),
   (93, "RigSlot1", "Rig power slot 2", 0),
   (94, "RigSlot2", "Rig power slot 3", 0),
   (95, "RigSlot3", "Rig power slot 4", 0),
   (96, "RigSlot4", "Rig power slot 5", 0),
   (97, "RigSlot5", "Rig power slot 6", 0),
   (98, "RigSlot6", "Rig power slot 7", 0),
   (99, "RigSlot7", "Rig power slot 8", 0),
   (115, "CorpSAG1", "Corp Security Access Group 1", 0),
   (116, "CorpSAG2", "Corp Security Access Group 2", 0),
   (117, "CorpSAG3", "Corp Security Access Group 3", 0),
   (118, "CorpSAG4", "Corp Security Access Group 4", 0),
   (119, "CorpSAG5", "Corp Security Access Group 5", 0),
   (120, "CorpSAG6", "Corp Security Access Group 6", 0),
   (121, "CorpSAG7", "Corp Security Access Group 7", 0),
   (122, "SecondaryStorage", "Secondary Storage", 0),
   (125, "SubSystem0", "Sub system slot 0", 0),
   (126, "SubSystem1", "Sub system slot 1", 0),
   (127, "SubSystem2", "Sub system slot 2", 0),
   (128, "SubSystem3", "Sub system slot 3", 0),
   (129, "SubSystem4", "Sub system slot 4", 0),
   (130, "SubSystem5", "Sub system slot 5", 0),
   (131, "SubSystem6", "Sub system slot 6", 0),
   (132, "SubSystem7", "Sub system slot 7", 0),
   (133, "SpecializedFuelBay", "Specialized Fuel Bay", 0),
   (134, "SpecializedAsteroidHold", "Specialized Asteroid Hold", 0),
   (135, "SpecializedGasHold", "Specialized Gas Hold", 0),
   (136, "SpecializedMineralHold", "Specialized Mineral Hold", 0),
   (137, "SpecializedSalvageHold", "Specialized Salvage Hold", 0),
   (138, "SpecializedShipHold", "Specialized Ship Hold", 0),
   (139, "SpecializedSmallShipHold", "Specialized Small Ship Hold", 0),
   (140, "SpecializedMediumShipHold", "Specialized Medium Ship Hold", 0),
   (141, "SpecializedLargeShipHold", "Specialized Large Ship Hold", 0),
   (142, "SpecializedIndustrialShipHold", "Specialized Industrial Ship Hold", 0),
   (143, "SpecializedAmmoHold", "Specialized Ammo Hold", 0),
   (144, "StructureActive", "Structure Active", 0),
   (145, "StructureInactive", "Structure Inactive", 0),
   (146, "JunkyardReprocessed", "This item was put into a junkyard through reprocession.", 0),
   (147, "JunkyardTrashed", "This item was put into a junkyard through being trashed by its owner.", 0),
   (148, "SpecializedCommandCenterHold", "Specialized Command Center Hold", 0),
   (149, "SpecializedPlanetaryCommoditiesHold", "Specialized Planetary Commodities Hold", 0),
   (150, "PlanetSurface", "Planet Surface", 0),
   (151, "SpecializedMaterialBay", "Specialized Material Bay", 0),
   (152, "DustCharacterDatabank", "Dust Character Databank", 0),
   (153, "DustCharacterBattle", "Dust Character Battle", 0),
   (154, "QuafeBay", "Quafe Bay", 0),
   (155, "FleetHangar", "Fleet Hangar", 0),
   (156, "HiddenModifiers", "Hidden Modifiers", 0),
   (157, "StructureOffline", "Structure Offline", 0),
   (158, "FighterBay", "Fighter Bay", 0),
   (159, "FighterTube0", "Fighter Tube 0", 0),
   (160, "FighterTube1", "Fighter Tube 1", 0),
   (161, "FighterTube2", "Fighter Tube 2", 0),
   (162, "FighterTube3", "Fighter Tube 3", 0),
   (163, "FighterTube4", "Fighter Tube 4", 0),
   (164, "StructureServiceSlot0", "Structure service slot 1", 0),
   (165, "StructureServiceSlot1", "Structure service slot 2", 0),
   (166, "StructureServiceSlot2", "Structure service slot 3", 0),
   (167, "StructureServiceSlot3", "Structure service slot 4", 0),
   (168, "StructureServiceSlot4", "Structure service slot 5", 0),
   (169, "StructureServiceSlot5", "Structure service slot 6", 0),
   (170, "StructureServiceSlot6", "Structure service slot 7", 0),
   (171, "StructureServiceSlot7", "Structure service slot 8", 0),
   (172, "StructureFuel", "Structure Fuel", 0),
   (173, "Deliveries", "Deliveries", 0),
   (174, "CrateLoot", "Crate Loot", 0),
   (176, "BoosterBay", "Booster Hold", 0),
   (177, "SubsystemBay", "Subsystem Hold", 0),
   (178, "Raffles", "Raffles Hangar", 0),
   (179, "FrigateEscapeBay", "Frigate escape bay Hangar", 0),
   (180, "StructureDeedBay", "Structure Deed Bay", 0),
   (181, "SpecializedIceHold", "Specialized Ice Hold", 0),
   (182, "SpecializedAsteroidHold", "Specialized Asteroid Hold", 0),
   (183, "MobileDepot", "Mobile Depot", 0),
   (184, "CorpProjectsHangar", "Corporation Projects Hangar ", 0),
   (185, "ColonyResourcesHold", "Infrastructure Hold", 0),
   (186, "MoonMaterialBay", "Moon Material Bay", 0),
   (187, "CapsuleerDeliveries", "Capsuleer Deliveries", 0)]

/-- The row built from one `FLAGS` tuple. -/
def invFlagsRow (t : Int × String × String × Int) : Row :=
  [("flagID", Cell.int t.1),
   ("flagName", Cell.str t.2.1),
   ("flagText", Cell.str t.2.2.1),
   ("orderID", Cell.int t.2.2.2)]

/-- The row-accumulation loop of `InvFlagsConverter.convert`. -/
def invFlagsRows : List Row :=
  FLAGS.foldl (fun rows t => rows ++ [invFlagsRow t]) []

/-! ### invUniqueNames -/

/-- Column order of `invUniqueNames.csv`. -/
def invUniqueNamesCOLUMNS : List String := ["itemID", "itemName", "groupID"]

/-- The row built for one `npcCharacters.jsonl` record: NPC characters get
the constant Character group id 1. -/
def invUniqueNamesRow (obj : CharRec) : Row :=
  [("itemID", Cell.int obj.key),
   ("itemName", oscell (getLoc obj.name)),
   ("groupID", Cell.int 1)]

/-- The row-accumulation loop of `InvUniqueNamesConverter.convert`. -/
def invUniqueNamesRows (objs : List CharRec) : List Row :=
  objs.foldl (fun rows obj => rows ++ [invUniqueNamesRow obj]) []

/-! ### invNames (multi-source join/synthesis) -/

/-- Column order of `invNames.csv`. -/
def invNamesCOLUMNS : List String := ["itemID", "itemName"]

/-- `InvNamesConverter._get_solar_from_orbit`: the orbit target counts as a
solar system id when it is truthy and a key of the lookup table. -/
def getSolarFromOrbit (obj : PlanetRec) (solar_systems : List (Int × Option String)) :
    Option Int :=
  match obj.orbitID with
  | some orbit_id =>
      if orbit_id != 0 && dmem solar_systems orbit_id then some orbit_id else none
  | none => none

/-- `solar_systems.get(solar_id, "Unknown")`: an unknown or absent solar id
resolves to the literal string `"Unknown"`; a known id yields the stored
(possibly `None`) localized name. -/
def sysNameOf (solar_systems : List (Int × Option String)) (solar_id : Option Int) :
    Option String :=
  match solar_id with
  | none => some "Unknown"
  | some k => (dget solar_systems k).getD (some "Unknown")

/-- The solar-system pass of `InvNamesConverter.convert`: builds the
id-to-name lookup table while emitting one name row per system. -/
def invNamesSysPass (systems : List SysRec) : List (Int × Option String) × List Row :=
  systems.foldl (fun p obj =>
    (p.1 ++ [(obj.key, getLoc obj.name)],
     p.2 ++ [[("itemID", Cell.int obj.key), ("itemName", oscell (getLoc obj.name))]]))
    ([], [])

/-- The planet pass: builds the planet-id lookup table (solar id, celestial
index) while emitting one `"{system} {roman}"` row per planet. -/
def invNamesPlanetPass (solar_systems : List (Int × Option String))
    (planets : List PlanetRec) (rows0 : List Row) :
    List (Int × Option Int × Nat) × List Row :=
  planets.foldl (fun p obj =>
    let solar_id := pyOrI obj.solarSystemID (getSolarFromOrbit obj solar_systems)
    let celestial_idx := obj.celestialIndex.getD 0
    let sys_name := pyStrOpt (sysNameOf solar_systems solar_id)
    (p.1 ++ [(obj.key, (solar_id, celestial_idx))],
     p.2 ++ [[("itemID", Cell.int obj.key),
              ("itemName", Cell.str (sys_name ++ " " ++ romanOf celestial_idx))]]))
    ([], rows0)

/-- The moon pass: a moon orbiting a known planet is named with that
planet's roman numeral, otherwise the degraded `"{system} - Moon {n}"`. -/
def invNamesMoonPass (solar_systems : List (Int × Option String))
    (planetsTbl : List (Int × Option Int × Nat)) (moons : List MoonRec)
    (rows0 : List Row) : List Row :=
  moons.foldl (fun rows obj =>
    let orbit_idx := obj.orbitIndex.getD 1
    let sys_name := pyStrOpt (sysNameOf solar_systems obj.solarSystemID)
    match obj.orbitID.bind (dget planetsTbl) with
    | some pr =>
        rows ++ [[("itemID", Cell.int obj.key),
                  ("itemName", Cell.str (sys_name ++ " " ++ romanOf pr.2 ++
                     " - Moon " ++ toString orbit_idx))]]
    | none =>
        rows ++ [[("itemID", Cell.int obj.key),
                  ("itemName", Cell.str (sys_name ++ " - Moon " ++ toString orbit_idx))]])
    rows0

/-- A pass emitting one verbatim localized-name row per record. -/
def invNamesNamedPass (named : List NamedRec) (rows0 : List Row) : List Row :=
  named.foldl (fun rows obj =>
    rows ++ [[("itemID", Cell.int obj.key), ("itemName", oscell (getLoc obj.name))]]) rows0

/-- The full row accumulation of `InvNamesConverter.convert`, in source
order: systems, planets, moons, stars, regions, constellations,
corporations, factions, NPC characters. -/
def invNamesRows (systems : List SysRec) (planets : List PlanetRec)
    (moons : List MoonRec) (stars : List StarRec)
    (regions constellations corporations factions : List NamedRec)
    (characters : List CharRec) : List Row :=
  let sp := invNamesSysPass systems
  let solar_systems := sp.1
  let pp := invNamesPlanetPass solar_systems planets sp.2
  let rows3 := invNamesMoonPass solar_systems pp.1 moons pp.2
  let rows4 := stars.foldl (fun rows obj =>
    rows ++ [[("itemID", Cell.int obj.key),
              ("itemName", Cell.str (pyStrOpt (sysNameOf solar_systems obj.solarSystemID)
                 ++ " - Star"))]]) rows3
  let rows5 := invNamesNamedPass regions rows4
  let rows6 := invNamesNamedPass constellations rows5
  let rows7 := invNamesNamedPass corporations rows6
  let rows8 := invNamesNamedPass factions rows7
  characters.foldl (fun rows obj =>
    rows ++ [[("itemID", Cell.int obj.key), ("itemName", oscell (getLoc obj.name))]]) rows8

/-! ### invItems -/

/-- Column order of `invItems.csv`. -/
def invItemsCOLUMNS : List String :=
  ["itemID", "typeID", "ownerID", "locationID", "flagID", "quantity"]

/-- The row built for one solar system: fixed type 5 and owner 1, located
in its region (0 when absent). -/
def invItemsSysRow (obj : SysRec) : Row :=
  [("itemID", Cell.int obj.key),
   ("typeID", Cell.int 5),
   ("ownerID", Cell.int 1),
   ("locationID", Cell.int (obj.regionID.getD 0)),
   ("flagID", Cell.int 0),
   ("quantity", Cell.int (-1))]

/-- The row built for one planet: its own type (0 when absent), owner 1,
located in its solar system (0 when absent). -/
def invItemsPlanetRow (obj : PlanetRec) : Row :=
  [("itemID", Cell.int obj.key),
   ("typeID", Cell.int (obj.typeID.getD 0)),
   ("ownerID", Cell.int 1),
   ("locationID", Cell.int (obj.solarSystemID.getD 0)),
   ("flagID", Cell.int 0),
   ("quantity", Cell.int (-1))]

/-- The row built for one moon, shaped like the planet row. -/
def invItemsMoonRow (obj : MoonRec) : Row :=
  [("itemID", Cell.int obj.key),
   ("typeID", Cell.int (obj.typeID.getD 0)),
   ("ownerID", Cell.int 1),
   ("locationID", Cell.int (obj.solarSystemID.getD 0)),
   ("flagID", Cell.int 0),
   ("quantity", Cell.int (-1))]

/-- The row built for one NPC station: type, owner and solar system all
read with `obj.get(..., 0)`. -/
def invItemsStationRow (obj : StationRec) : Row :=
  [("itemID", Cell.int obj.key),
   ("typeID", Cell.int (obj.typeID.getD 0)),
   ("ownerID", Cell.int (obj.ownerID.getD 0)),
   ("locationID", Cell.int (obj.solarSystemID.getD 0)),
   ("flagID", Cell.int 0),
   ("quantity", Cell.int (-1))]

/-- The four sequential row-accumulation loops of `InvItemsConverter.convert`. -/
def invItemsRows (systems : List SysRec) (planets : List PlanetRec)
    (moons : List MoonRec) (stations : List StationRec) : List Row :=
  let rows1 := systems.foldl (fun rows obj => rows ++ [invItemsSysRow obj]) []
  let rows2 := planets.foldl (fun rows obj => rows ++ [invItemsPlanetRow obj]) rows1
  let rows3 := moons.foldl (fun rows obj => rows ++ [invItemsMoonRow obj]) rows2
  stations.foldl (fun rows obj => rows ++ [invItemsStationRow obj]) rows3

/-! ### Registry and orchestrator -/

/-- The registry's table names, in `CONVERTERS` insertion order. -/
def CONVERTER_NAMES : List String :=
  ["invTypes", "invGroups", "invMetaGroups", "invMetaTypes", "industryActivity",
   "industryActivityMaterials", "industryActivityProducts", "ramActivities",
   "invFlags", "invUniqueNames", "invNames", "invItems"]

/-- The `for name in converters_to_run` loop of `convert`: each name is
checked against the registry as it is reached; a known name's converter
runs (first component records the executed names in order), an unknown
name raises `ValueError` on the spot, abandoning the rest. -/
def convertLoop : List String → List String × Option String
  | [] => ([], none)
  | n :: rest =>
      if CONVERTER_NAMES.contains n then
        let r := convertLoop rest
        (n :: r.1, r.2)
      else ([], some ("Unknown converter: " ++ n))

/-- The `convert` entry point: a missing SDE path raises at once;
`only if only else list(CONVERTERS.keys())` falls back to all converters
when `only` is `None` or the empty (falsy) list. -/
def convertRun (sdePathExists : Bool) (only : Option (List String)) :
    List String × Option String :=
  if !sdePathExists then ([], some "SDE path does not exist")
  else
    convertLoop (match only with
      | some l => if l.isEmpty then CONVERTER_NAMES else l
      | none => CONVERTER_NAMES)

/-! ### The full pipeline as a function on directories -/

/-- The input directory: each named source is present with its decoded
records, or absent.  `read_jsonl` turns an absent source into the empty
sequence. -/
structure SDEInput where
  types : Option (List TypeRec)
  groups : Option (List GroupRec)
  metaGroups : Option (List MetaGroupRec)
  blueprints : Option (List BlueprintRec)
  npcCharacters : Option (List CharRec)
  mapSolarSystems : Option (List SysRec)
  mapPlanets : Option (List PlanetRec)
  mapMoons : Option (List MoonRec)
  mapStars : Option (List StarRec)
  mapRegions : Option (List NamedRec)
  mapConstellations : Option (List NamedRec)
  npcCorporations : Option (List NamedRec)
  factions : Option (List NamedRec)
  npcStations : Option (List StationRec)

/-- An input directory in which every named source is absent. -/
def emptyInput : SDEInput :=
  ⟨none, none, none, none, none, none, none, none, none, none, none, none, none, none⟩

/-- Reading a possibly-missing source yields its records or the empty
sequence, as `read_jsonl` does. -/
def srcOf {α : Type u} (o : Option (List α)) : List α := o.getD []

/-- Overwrite one file of the output directory (`open(filepath, "w")`). -/
def fupd (out : String → Option String) (k : String) (v : String) :
    String → Option String :=
  fun n => if n = k then some v else out n

/-- One full run of `convert` over every registered converter, in registry
order, as a transformation of the output directory's contents: each
converter reads only the input directory and overwrites its own file. -/
def fullConvert (inp : SDEInput) (out : String → Option String) :
    String → Option String :=
  let o1 := fupd out "invTypes.csv"
    (writeCsvContent invTypesCOLUMNS (invTypesRows (srcOf inp.types)))
  let o2 := fupd o1 "invGroups.csv"
    (writeCsvContent invGroupsCOLUMNS (invGroupsRows (srcOf inp.groups)))
  let o3 := fupd o2 "invMetaGroups.csv"
    (writeCsvContent invMetaGroupsCOLUMNS (invMetaGroupsRows (srcOf inp.metaGroups)))
  let o4 := fupd o3 "invMetaTypes.csv"
    (writeCsvContent invMetaTypesCOLUMNS (invMetaTypesRows (srcOf inp.types)))
  let o5 := fupd o4 "industryActivity.csv"
    (writeCsvContent industryActivityCOLUMNS (industryActivityRows (srcOf inp.blueprints)))
  let o6 := fupd o5 "industryActivityMaterials.csv"
    (writeCsvContent industryActivityMaterialsCOLUMNS
      (industryActivityMaterialsRows (srcOf inp.blueprints)))
  let o7 := fupd o6 "industryActivityProducts.csv"
    (writeCsvContent industryActivityProductsCOLUMNS
      (industryActivityProductsRows (srcOf inp.blueprints)))
  let o8 := fupd o7 "ramActivities.csv"
    (writeCsvContent ramActivitiesCOLUMNS ramActivitiesRows)
  let o9 := fupd o8 "invFlags.csv"
    (writeCsvContent invFlagsCOLUMNS invFlagsRows)
  let o10 := fupd o9 "invUniqueNames.csv"
    (writeCsvContent invUniqueNamesCOLUMNS (invUniqueNamesRows (srcOf inp.npcCharacters)))
  let o11 := fupd o10 "invNames.csv"
    (writeCsvContent invNamesCOLUMNS (invNamesRows (srcOf inp.mapSolarSystems)
      (srcOf inp.mapPlanets) (srcOf inp.mapMoons) (srcOf inp.mapStars)
      (srcOf inp.mapRegions) (srcOf inp.mapConstellations)
      (srcOf inp.npcCorporations) (srcOf inp.factions) (srcOf inp.npcCharacters)))
  fupd o11 "invItems.csv"
    (writeCsvContent invItemsCOLUMNS (invItemsRows (srcOf inp.mapSolarSystems)
      (srcOf inp.mapPlanets) (srcOf inp.mapMoons) (srcOf inp.npcStations)))

/-- The sequence of (file name, content) writes one full run performs. -/
def fullConvertWrites (inp : SDEInput) : List (String × String) :=
  [("invTypes.csv", writeCsvContent invTypesCOLUMNS (invTypesRows (srcOf inp.types))),
   ("invGroups.csv", writeCsvContent invGroupsCOLUMNS (invGroupsRows (srcOf inp.groups))),
   ("invMetaGroups.csv", writeCsvContent invMetaGroupsCOLUMNS (invMetaGroupsRows (srcOf inp.metaGroups))),
   ("invMetaTypes.csv", writeCsvContent invMetaTypesCOLUMNS (invMetaTypesRows (srcOf inp.types))),
   ("industryActivity.csv", writeCsvContent industryActivityCOLUMNS (industryActivityRows (srcOf inp.blueprints))),
   ("industryActivityMaterials.csv", writeCsvContent industryActivityMaterialsCOLUMNS
      (industryActivityMaterialsRows (srcOf inp.blueprints))),
   ("industryActivityProducts.csv", writeCsvContent industryActivityProductsCOLUMNS
      (industryActivityProductsRows (srcOf inp.blueprints))),
   ("ramActivities.csv", writeCsvContent ramActivitiesCOLUMNS ramActivitiesRows),
   ("invFlags.csv", writeCsvContent invFlagsCOLUMNS invFlagsRows),
   ("invUniqueNames.csv", writeCsvContent invUniqueNamesCOLUMNS (invUniqueNamesRows (srcOf inp.npcCharacters))),
   ("invNames.csv", writeCsvContent invNamesCOLUMNS (invNamesRows (srcOf inp.mapSolarSystems)
      (srcOf inp.mapPlanets) (srcOf inp.mapMoons) (srcOf inp.mapStars)
      (srcOf inp.mapRegions) (srcOf inp.mapConstellations)
      (srcOf inp.npcCorporations) (srcOf inp.factions) (srcOf inp.npcCharacters))),
   ("invItems.csv", writeCsvContent invItemsCOLUMNS (invItemsRows (srcOf inp.mapSolarSystems)
      (srcOf inp.mapPlanets) (srcOf inp.mapMoons) (srcOf inp.npcStations)))]

/-- Apply a sequence of file writes to an output directory, in order. -/
def applyWrites (ws : List (String × String)) (out : String → Option String) :
    String → Option String :=
  ws.foldl (fun o p => fupd o p.1 p.2) out

/-! ### Helper lemmas about the loop shape -/

/-- A `rows.append` loop over `l` starting from `acc` appends the
concatenation of the per-element row lists. -/
theorem foldl_append_eq {α : Type u} {β : Type v} (g : α → List β) :
    ∀ (l : List α) (acc : List β),
      l.foldl (fun a x => a ++ g x) acc = acc ++ (l.map g).flatten := by
  intro l
  induction l with
  | nil => intro acc; simp
  | cons x xs ih => intro acc; simp [ih, List.append_assoc]

/-- Specialization to loops appending a single row per element. -/
theorem foldl_append_singleton {α : Type u} {β : Type v} (g : α → β) :
    ∀ (l : List α) (acc : List β),
      l.foldl (fun a x => a ++ [g x]) acc = acc ++ l.map g := by
  intro l acc
  rw [foldl_append_eq (fun x => [g x]) l acc]
  congr 1
  induction l with
  | nil => rfl
  | cons x xs ih => simp [ih]

/-- C4: the Roman-numeral mapping used for celestial indices sends 1 to "I",
5 to "V", 20 to "XX", 0 to the empty string, and every index 21 or greater
to its decimal digits. -/
theorem roman_numeral_mapping :
    romanOf 1 = "I" ∧ romanOf 5 = "V" ∧ romanOf 20 = "XX" ∧ romanOf 0 = "" ∧
      ∀ idx : Nat, 21 ≤ idx → romanOf idx = toString idx := by
  refine ⟨by decide, by decide, by decide, by decide, fun idx h => ?_⟩
  have hlt : ¬ idx < ROMAN.length := by
    rw [show ROMAN.length = 21 from rfl]
    omega
  unfold romanOf
  rw [if_neg hlt]

theorem roman_numeral_mapping_check : 21 ≤ 21 ∧ romanOf 21 = toString 21 :=
  ⟨by decide, roman_numeral_mapping.2.2.2.2 21 (by decide)⟩

/-- C2 counterexample: no invFlags row carries flagID 181 together with
flagName "SpecializedAsteroidHold" (the row with id 181 is
"SpecializedIceHold"), so the duplicated name does not appear under
ids 181 and 182 as the claim states. -/
theorem invFlags_no_181_row :
    invFlagsRows.filter (fun r =>
        dget r "flagID" == some (Cell.int 181) &&
        dget r "flagName" == some (Cell.str "SpecializedAsteroidHold")) = [] := by
  decide

/-- C2 amended: the invFlags converter emits exactly the embedded constant
table's rows, in embedded order, and the duplicated flag name
"SpecializedAsteroidHold" appears as two distinct rows under its two ids,
134 and 182 (no deduplication). -/
theorem invFlags_embedded_table :
    invFlagsRows = FLAGS.map invFlagsRow ∧
      invFlagsRows.filter (fun r =>
          dget r "flagName" == some (Cell.str "SpecializedAsteroidHold")) =
        [[("flagID", Cell.int 134), ("flagName", Cell.str "SpecializedAsteroidHold"),
          ("flagText", Cell.str "Specialized Asteroid Hold"), ("orderID", Cell.int 0)],
         [("flagID", Cell.int 182), ("flagName", Cell.str "SpecializedAsteroidHold"),
          ("flagText", Cell.str "Specialized Asteroid Hold"), ("orderID", Cell.int 0)]] := by
  constructor
  · rw [invFlagsRows, foldl_append_singleton]
    rfl
  · decide

/-- C5: a type record without a meta-group field contributes zero rows to
invMetaTypes; one with a non-absent meta-group field contributes exactly
one row whose typeID is the record's `_key`, whose metaGroupID is the
meta-group field, and whose parentTypeID is the (possibly absent)
variation-parent field. -/
theorem invMetaTypes_filtered_projection :
    ∀ objs : List TypeRec,
      invMetaTypesRows objs = objs.filterMap (fun obj =>
        obj.metaGroupID.map (fun meta_group_id =>
          [("typeID", ocell obj.key),
           ("parentTypeID", cello obj.variationParentTypeID),
           ("metaGroupID", meta_group_id)])) := by
  intro objs
  suffices h : ∀ acc, objs.foldl invMetaTypesStep acc = acc ++ objs.filterMap (fun obj =>
      obj.metaGroupID.map (fun meta_group_id =>
        [("typeID", ocell obj.key),
         ("parentTypeID", cello obj.variationParentTypeID),
         ("metaGroupID", meta_group_id)])) by
    simpa [invMetaTypesRows] using h []
  induction objs with
  | nil => intro acc; simp
  | cons o os ih =>
      intro acc
      cases hm : o.metaGroupID with
      | none => simp [invMetaTypesStep, hm, ih]
      | some m => simp [invMetaTypesStep, hm, ih, List.append_assoc]

/-- C6 counterexample: for an NPC-station record lacking an ownerID field,
the emitted row's ownerID is the default 0, not the value read directly
from the record (which is absent, i.e. `None`), refuting the claim that
the station owner field is taken without a default. -/
theorem invItems_station_owner_defaulted :
    invItemsRows [] [] [] [⟨7, some 30, some 9, none⟩] =
      [[("itemID", Cell.int 7), ("typeID", Cell.int 9), ("ownerID", Cell.int 0),
        ("locationID", Cell.int 30), ("flagID", Cell.int 0), ("quantity", Cell.int (-1))]] ∧
    ocell (StationRec.mk 7 (some 30) (some 9) none).ownerID = Cell.null ∧
    Cell.int 0 ≠ Cell.null := by
  refine ⟨by decide, by decide, by decide⟩

/-- C6 amended: in every invItems row, fields absent from the source record
are placed as 0 — planet/moon typeID and solarSystemID, solar-system
regionID, and station typeID, solarSystemID and ownerID alike; solar-system
rows carry typeID 5 and ownerID 1, planet and moon rows carry ownerID 1,
and every row carries flagID 0 and quantity -1. -/
theorem invItems_row_shapes :
    ∀ (systems : List SysRec) (planets : List PlanetRec) (moons : List MoonRec)
      (stations : List StationRec),
      invItemsRows systems planets moons stations =
        systems.map (fun obj =>
          [("itemID", Cell.int obj.key), ("typeID", Cell.int 5), ("ownerID", Cell.int 1),
           ("locationID", Cell.int (obj.regionID.getD 0)), ("flagID", Cell.int 0),
           ("quantity", Cell.int (-1))]) ++
        planets.map (fun obj =>
          [("itemID", Cell.int obj.key), ("typeID", Cell.int (obj.typeID.getD 0)),
           ("ownerID", Cell.int 1), ("locationID", Cell.int (obj.solarSystemID.getD 0)),
           ("flagID", Cell.int 0), ("quantity", Cell.int (-1))]) ++
        moons.map (fun obj =>
          [("itemID", Cell.int obj.key), ("typeID", Cell.int (obj.typeID.getD 0)),
           ("ownerID", Cell.int 1), ("locationID", Cell.int (obj.solarSystemID.getD 0)),
           ("flagID", Cell.int 0), ("quantity", Cell.int (-1))]) ++
        stations.map (fun obj =>
          [("itemID", Cell.int obj.key), ("typeID", Cell.int (obj.typeID.getD 0)),
           ("ownerID", Cell.int (obj.ownerID.getD 0)),
           ("locationID", Cell.int (obj.solarSystemID.getD 0)),
           ("flagID", Cell.int 0), ("quantity", Cell.int (-1))]) := by
  intro systems planets moons stations
  rw [invItemsRows]
  simp only [foldl_append_singleton, List.nil_append, List.append_assoc]
  rfl

/-- C3: a blueprint record whose single activity is "manufacturing" with
time 120, two materials and one product yields exactly one industryActivity
row (activityID 1, time 120), exactly two industryActivityMaterials rows
and exactly one industryActivityProducts row, all sharing the blueprint's
id as typeID; and an activity whose name is absent from the static
name-to-id table contributes zero rows to any of the three tables. -/
theorem industry_activity_fanout :
    (∀ (bid : Int) (m1 m2 p1 : MatRef),
      industryActivityRows
          [⟨some bid, some [("manufacturing",
            ⟨some (Cell.int 120), some [m1, m2], some [p1]⟩)]⟩] =
        [[("typeID", Cell.int bid), ("activityID", Cell.int 1), ("time", Cell.int 120)]] ∧
      industryActivityMaterialsRows
          [⟨some bid, some [("manufacturing",
            ⟨some (Cell.int 120), some [m1, m2], some [p1]⟩)]⟩] =
        [[("typeID", Cell.int bid), ("activityID", Cell.int 1),
          ("materialTypeID", cello m1.typeID), ("quantity", cello m1.quantity)],
         [("typeID", Cell.int bid), ("activityID", Cell.int 1),
          ("materialTypeID", cello m2.typeID), ("quantity", cello m2.quantity)]] ∧
      industryActivityProductsRows
          [⟨some bid, some [("manufacturing",
            ⟨some (Cell.int 120), some [m1, m2], some [p1]⟩)]⟩] =
        [[("typeID", Cell.int bid), ("activityID", Cell.int 1),
          ("productTypeID", cello p1.typeID), ("quantity", cello p1.quantity)]]) ∧
    (∀ (obid : Option Int) (acts1 acts2 : List (String × ActivityData))
       (aname : String) (a : ActivityData),
      dget ACTIVITY_IDS aname = none →
      industryActivityRows [⟨obid, some (acts1 ++ (aname, a) :: acts2)⟩] =
          industryActivityRows [⟨obid, some (acts1 ++ acts2)⟩] ∧
      industryActivityMaterialsRows [⟨obid, some (acts1 ++ (aname, a) :: acts2)⟩] =
          industryActivityMaterialsRows [⟨obid, some (acts1 ++ acts2)⟩] ∧
      industryActivityProductsRows [⟨obid, some (acts1 ++ (aname, a) :: acts2)⟩] =
          industryActivityProductsRows [⟨obid, some (acts1 ++ acts2)⟩]) := by
  constructor
  · intro bid m1 m2 p1
    refine ⟨?_, ?_, ?_⟩ <;>
      simp [industryActivityRows, industryActivityMaterialsRows,
        industryActivityProductsRows, industryActivityStep,
        industryActivityMaterialsStep, industryActivityProductsStep,
        dget, ACTIVITY_IDS, ocell]
  · intro obid acts1 acts2 aname a h
    refine ⟨?_, ?_, ?_⟩ <;>
      simp [industryActivityRows, industryActivityMaterialsRows,
        industryActivityProductsRows, List.foldl_append, List.foldl_cons,
        industryActivityStep, industryActivityMaterialsStep,
        industryActivityProductsStep, h]

theorem industry_activity_fanout_check :
    dget ACTIVITY_IDS "mining" = none ∧
      industryActivityRows
          [⟨some 100, some [("mining", ⟨some (Cell.int 5), some [], some []⟩)]⟩] =
        industryActivityRows [⟨some 100, some []⟩] :=
  ⟨by decide,
   ((industry_activity_fanout.2 (some 100) [] []
      "mining" ⟨some (Cell.int 5), some [], some []⟩ (by decide)).1)⟩

/-- C1: for an input with one solar system named "Jita", one planet with
celestial index 4 in that system, and one moon orbiting that planet with
orbit index 1 in the same system, the invNames converter emits exactly the
rows "Jita", "Jita IV" and "Jita IV - Moon 1" for the respective ids. -/
theorem invNames_jita_synthesis :
    ∀ (sysId planetId moonId : Int), sysId ≠ 0 →
      invNamesRows
          [⟨sysId, some (.flat "Jita"), none⟩]
          [⟨planetId, some sysId, some 4, none, none⟩]
          [⟨moonId, some planetId, some 1, some sysId, none⟩]
          [] [] [] [] [] [] =
        [[("itemID", Cell.int sysId), ("itemName", Cell.str "Jita")],
         [("itemID", Cell.int planetId), ("itemName", Cell.str "Jita IV")],
         [("itemID", Cell.int moonId), ("itemName", Cell.str "Jita IV - Moon 1")]] := by
  intro sysId planetId moonId h
  simp [invNamesRows, invNamesSysPass, invNamesPlanetPass, invNamesMoonPass,
    invNamesNamedPass, pyOrI, pyTruthy, bne_iff_ne, h, sysNameOf, dget, dmem,
    getLoc, get_localized, pyStrOpt, romanOf, ROMAN, oscell, List.find?]
  rfl

theorem invNames_jita_synthesis_check :
    (30000142 : Int) ≠ 0 ∧
      invNamesRows
          [⟨30000142, some (.flat "Jita"), none⟩]
          [⟨40001, some 30000142, some 4, none, none⟩]
          [⟨50001, some 40001, some 1, some 30000142, none⟩]
          [] [] [] [] [] [] =
        [[("itemID", Cell.int 30000142), ("itemName", Cell.str "Jita")],
         [("itemID", Cell.int 40001), ("itemName", Cell.str "Jita IV")],
         [("itemID", Cell.int 50001), ("itemName", Cell.str "Jita IV - Moon 1")]] :=
  ⟨by decide, invNames_jita_synthesis 30000142 40001 50001 (by decide)⟩

/-- C10: in the invNames converter a moon record lacking an orbitIndex field
is named with orbit index 1 (yielding "... - Moon 1"), and a planet record
lacking a celestialIndex field is treated as celestial index 0, producing
the system name followed by a space and the empty numeral. -/
theorem invNames_missing_index_defaults :
    ∀ (sysId planetId moonId : Int), sysId ≠ 0 →
      (invNamesRows
          [⟨sysId, some (.flat "Jita"), none⟩]
          [⟨planetId, some sysId, some 4, none, none⟩]
          [⟨moonId, some planetId, none, some sysId, none⟩]
          [] [] [] [] [] [] =
        [[("itemID", Cell.int sysId), ("itemName", Cell.str "Jita")],
         [("itemID", Cell.int planetId), ("itemName", Cell.str "Jita IV")],
         [("itemID", Cell.int moonId), ("itemName", Cell.str "Jita IV - Moon 1")]]) ∧
      (invNamesRows
          [⟨sysId, some (.flat "Jita"), none⟩]
          [⟨planetId, some sysId, none, none, none⟩]
          [] [] [] [] [] [] [] =
        [[("itemID", Cell.int sysId), ("itemName", Cell.str "Jita")],
         [("itemID", Cell.int planetId), ("itemName", Cell.str "Jita ")]]) := by
  intro sysId planetId moonId h
  constructor
  · simp [invNamesRows, invNamesSysPass, invNamesPlanetPass, invNamesMoonPass,
      invNamesNamedPass, pyOrI, pyTruthy, bne_iff_ne, h, sysNameOf, dget, dmem,
      getLoc, get_localized, pyStrOpt, romanOf, ROMAN, oscell, List.find?]
    rfl
  · simp [invNamesRows, invNamesSysPass, invNamesPlanetPass, invNamesMoonPass,
      invNamesNamedPass, pyOrI, pyTruthy, bne_iff_ne, h, sysNameOf, dget, dmem,
      getLoc, get_localized, pyStrOpt, romanOf, ROMAN, oscell, List.find?]

theorem invNames_missing_index_defaults_check :
    (30000142 : Int) ≠ 0 ∧
      invNamesRows
          [⟨30000142, some (.flat "Jita"), none⟩]
          [⟨40001, some 30000142, none, none, none⟩]
          [] [] [] [] [] [] [] =
        [[("itemID", Cell.int 30000142), ("itemName", Cell.str "Jita")],
         [("itemID", Cell.int 40001), ("itemName", Cell.str "Jita ")]] :=
  ⟨by decide, (invNames_missing_index_defaults 30000142 40001 0 (by decide)).2⟩

/-- C7: a missing named input source does not fail the run — `read_jsonl`
yields the empty sequence and a suppressible warning — and with every
source absent each converter still writes a well-formed output file
consisting of exactly its header row and zero data rows. -/
theorem missing_source_header_only :
    ∀ {α : Type} (fs : String → Option (List α)) (quiet : Bool) (filename : String),
      fs filename = none →
      read_jsonl fs quiet filename =
        ([], if quiet then []
             else ["Warning: " ++ filename ++ " not found, skipping"]) ∧
      ∀ out : String → Option String,
        fullConvert emptyInput out "invTypes.csv" =
          some "typeID,groupID,typeName,description,mass,volume,capacity,portionSize,raceID,basePrice,published,marketGroupID,iconID,soundID,graphicID\r\n" ∧
        fullConvert emptyInput out "invGroups.csv" =
          some "groupID,categoryID,groupName,iconID,useBasePrice,anchored,anchorable,fittableNonSingleton,published\r\n" ∧
        fullConvert emptyInput out "invMetaGroups.csv" =
          some "metaGroupID,metaGroupName,description,iconID\r\n" ∧
        fullConvert emptyInput out "invMetaTypes.csv" =
          some "typeID,parentTypeID,metaGroupID\r\n" ∧
        fullConvert emptyInput out "industryActivity.csv" =
          some "typeID,activityID,time\r\n" ∧
        fullConvert emptyInput out "industryActivityMaterials.csv" =
          some "typeID,activityID,materialTypeID,quantity\r\n" ∧
        fullConvert emptyInput out "industryActivityProducts.csv" =
          some "typeID,activityID,productTypeID,quantity\r\n" ∧
        fullConvert emptyInput out "invUniqueNames.csv" =
          some "itemID,itemName,groupID\r\n" ∧
        fullConvert emptyInput out "invNames.csv" =
          some "itemID,itemName\r\n" ∧
        fullConvert emptyInput out "invItems.csv" =
          some "itemID,typeID,ownerID,locationID,flagID,quantity\r\n" := by
  intro α fs quiet filename h
  refine ⟨by simp [read_jsonl, h], fun out => ?_⟩
  refine ⟨?_, ?_, ?_, ?_, ?_, ?_, ?_, ?_, ?_, ?_⟩ <;>
    · simp [fullConvert, fupd, emptyInput, srcOf]
      decide

theorem missing_source_header_only_check :
    read_jsonl (fun _ => (none : Option (List TypeRec))) false "types.jsonl" =
      ([], ["Warning: types.jsonl not found, skipping"]) :=
  (missing_source_header_only (fun _ => none) false "types.jsonl" rfl).1

/-- Running `convert` on a request whose names are all registered up to the
first unknown one executes exactly that prefix, then raises. -/
theorem convertLoop_prefix :
    ∀ (good : List String) (bad : String) (rest : List String),
      (∀ n ∈ good, n ∈ CONVERTER_NAMES) →
      bad ∉ CONVERTER_NAMES →
      convertLoop (good ++ bad :: rest) =
        (good, some ("Unknown converter: " ++ bad)) := by
  intro good
  induction good with
  | nil => intro bad rest _ hb; simp [convertLoop, hb]
  | cons g gs ih =>
      intro bad rest hg hb
      have hgf : g ∈ CONVERTER_NAMES := hg g (List.mem_cons_self g gs)
      simp [convertLoop, hgf,
        ih bad rest (fun n hn => hg n (List.mem_cons_of_mem g hn)) hb]

/-- C8 counterexample: requesting ["invTypes", "invTypos"] does raise an
error for the unknown name, but only after the "invTypes" converter has
already executed (and written its output), refuting the claim that no
converter from the request is executed before the error. -/
theorem convert_unknown_name_not_immediate :
    (convertRun true (some ["invTypes", "invTypos"])).2.isSome = true ∧
      (convertRun true (some ["invTypes", "invTypos"])).1 = ["invTypes"] ∧
      ["invTypes"] ≠ ([] : List String) :=
  ⟨by decide, by decide, by decide⟩

/-- C8 amended: a requested converter-name list containing an unknown name
raises a fatal error when the loop reaches that name, aborting the run;
the converters preceding the first unknown name have already executed
(and written their outputs) by then. -/
theorem convert_unknown_name_aborts :
    ∀ (good : List String) (bad : String) (rest : List String),
      (∀ n ∈ good, n ∈ CONVERTER_NAMES) →
      bad ∉ CONVERTER_NAMES →
      convertRun true (some (good ++ bad :: rest)) =
        (good, some ("Unknown converter: " ++ bad)) := by
  intro good bad rest hg hb
  have hne : (good ++ bad :: rest).isEmpty = false := by cases good <;> simp
  simp [convertRun, hne, convertLoop_prefix good bad rest hg hb]

theorem convert_unknown_name_aborts_check :
    (∀ n ∈ ["invTypes"], n ∈ CONVERTER_NAMES) ∧
      "invTypos" ∉ CONVERTER_NAMES ∧
      convertRun true (some (["invTypes"] ++ "invTypos" :: [])) =
        (["invTypes"], some ("Unknown converter: " ++ "invTypos")) :=
  ⟨by decide, by decide,
   convert_unknown_name_aborts ["invTypes"] "invTypos" [] (by decide) (by decide)⟩

/-- `fullConvert` performs exactly its write sequence. -/
theorem fullConvert_eq_applyWrites (inp : SDEInput) (out : String → Option String) :
    fullConvert inp out = applyWrites (fullConvertWrites inp) out := rfl

/-- Applying the same writes to bases that agree at `n` gives the same value at `n`. -/
theorem applyWrites_congr (ws : List (String × String)) :
    ∀ (o1 o2 : String → Option String) (n : String), o1 n = o2 n →
      applyWrites ws o1 n = applyWrites ws o2 n := by
  induction ws with
  | nil => intro o1 o2 n h; exact h
  | cons w ws ih =>
      intro o1 o2 n h
      simp only [applyWrites, List.foldl_cons] at ih ⊢
      apply ih
      by_cases hn : n = w.1 <;> simp [fupd, hn, h]

/-- A file that some write targets ends up with a value independent of the base. -/
theorem applyWrites_indep (ws : List (String × String)) :
    ∀ (o1 o2 : String → Option String) (n : String), n ∈ ws.map Prod.fst →
      applyWrites ws o1 n = applyWrites ws o2 n := by
  induction ws with
  | nil => intro o1 o2 n h; simp at h
  | cons w ws ih =>
      intro o1 o2 n h
      simp only [applyWrites, List.foldl_cons] at ih ⊢
      by_cases hn : n ∈ ws.map Prod.fst
      · exact ih _ _ n hn
      · have hw : n = w.1 := by
          rcases List.mem_cons.mp h with h1 | h1
          · exact h1
          · exact absurd h1 hn
        apply applyWrites_congr
        simp [fupd, hw]

/-- A file no write targets keeps its base value. -/
theorem applyWrites_unwritten (ws : List (String × String)) :
    ∀ (o : String → Option String) (n : String), n ∉ ws.map Prod.fst →
      applyWrites ws o n = o n := by
  induction ws with
  | nil => intro o n _; rfl
  | cons w ws ih =>
      intro o n h
      have h1 : n ≠ w.1 ∧ n ∉ ws.map Prod.fst := by
        simpa [not_or] using h
      simp only [applyWrites, List.foldl_cons] at ih ⊢
      rw [ih _ n h1.2]
      simp [fupd, h1.1]

/-- C9: the conversion is a deterministic function of the input records
with no run-to-run state, so running the full conversion twice over the
same input overwrites each output file with identical content: the output
directory after two runs equals the output directory after one. -/
theorem full_conversion_idempotent :
    ∀ (inp : SDEInput) (out : String → Option String),
      fullConvert inp (fullConvert inp out) = fullConvert inp out := by
  intro inp out
  rw [fullConvert_eq_applyWrites inp out,
    fullConvert_eq_applyWrites inp (applyWrites (fullConvertWrites inp) out)]
  funext n
  by_cases hn : n ∈ (fullConvertWrites inp).map Prod.fst
  · exact applyWrites_indep (fullConvertWrites inp) _ _ n hn
  · rw [applyWrites_unwritten (fullConvertWrites inp) _ n hn,
      applyWrites_unwritten (fullConvertWrites inp) _ n hn]

end SDE
